import Mathlib

/-!
# Verification of the beam-mysql connector core

A shallow embedding of the algorithmic core of the `beam_mysql` connector
(`client.py`, `source.py`, `io.py`) together with theorems settling the
spec's claims about it.  Machine integers are modelled as `Nat`/`Int`,
Python dicts as association lists or `Finset` key sets, and raised
exceptions as explicit error values.
-/

set_option autoImplicit false

namespace BeamMysql

/-- The exception kinds that matter to the connector: the driver's own
`mysql.connector.errors.Error` and the domain `MySQLClientError`
(`beam_mysql/connector/errors.py`). -/
inductive PyErr where
  | mysqlConnectorError
  | mysqlClientError
deriving DecidableEq, Repr

/-! ## Count estimator (`client.py`, `MySQLClient.rough_counts_estimator`)

A planner row as returned by `EXPLAIN ... ` with a dictionary cursor: the
estimator only looks at its `select_type` and `rows` fields. -/

/-- One row of the query planner's output. -/
structure PlannerRow where
  select_type : String
  rows : Int
deriving DecidableEq, Repr

/-- Python truthiness of a string: non-empty strings are truthy. -/
def pyTruthyStr (s : String) : Bool := !s.isEmpty

/-- The condition on line 89 of `client.py`, exactly as written:
`record["select_type"] == "PRIMARY" or "SIMPLE"`.  Python parses this as
`(record["select_type"] == "PRIMARY") or "SIMPLE"`, whose second operand
is the truthy string literal `"SIMPLE"`. -/
def selectTypeCond (st : String) : Bool :=
  (st == "PRIMARY") || pyTruthyStr "SIMPLE"

/-- The accumulation loop of `rough_counts_estimator`: `total_number`
starts at 0 and is overwritten by `record["rows"]` for every record
satisfying `selectTypeCond`. -/
def estimatorTotal (records : List PlannerRow) : Int :=
  records.foldl (fun acc r => if selectTypeCond r.select_type then r.rows else acc) 0

/-- The body of `rough_counts_estimator` after a successful `EXPLAIN` execution:
compute `total_number` from the fetched records, then — outside the
`try`/`except` block — raise `mysql.connector.errors.Error` when
`total_number <= 0` and return it otherwise (`client.py` lines 84-99). -/
def rough_counts_estimator (records : List PlannerRow) : Except PyErr Int :=
  let total := estimatorTotal records
  if total ≤ 0 then Except.error PyErr.mysqlConnectorError else Except.ok total

/-! ## Config validation (`client.py`, `MySQLClient._validate_config`)

`config.keys() == required_keys` compares the dict's key view with a set,
which is set equality; a Python dict cannot carry duplicate keys, so the
key view is faithfully a `Finset String`. -/

/-- The `required_keys` literal of `_validate_config`. -/
def required_keys : Finset String :=
  {"host", "port", "database", "user", "password"}

/-- Validation `_validate_config` succeeds exactly when the config's key set equals
`required_keys`. -/
def validate_config (keys : Finset String) : Bool :=
  keys == required_keys

/-- Construction: `MySQLClient.__post_init__` construction runs `_validate_config` and
raises `MySQLClientError` when it fails. -/
def mysqlClientInit (keys : Finset String) : Except PyErr Unit :=
  if validate_config keys then Except.ok () else Except.error PyErr.mysqlClientError

/-! ## Python positional-call arity

Neither `MySQLSource.__init__(self, query, config)` nor
`MySQLClient.record_loader(self, query)` declares defaults or varargs, so
a positional call to them succeeds exactly when the argument count equals
the parameter count. -/

/-- A positional Python call binds exactly when the caller supplies as
many arguments as the callee declares parameters (no defaults, no
varargs); otherwise it raises `TypeError`. -/
def pythonCallOk (params args : Nat) : Bool := params == args

/-- Positional parameters of `MySQLSource.__init__` after `self`:
`query, config` (`source.py` line 16). -/
def mysqlsource_init_params : List String := ["query", "config"]

/-- Positional arguments `ReadFromMySQL.expand` passes to `MySQLSource`:
`query, host, database, user, password, port, splitter`
(`io.py` lines 40-43). -/
def readfrommysql_expand_args : List String :=
  ["query", "host", "database", "user", "password", "port", "splitter"]

/-- Positional parameters of `MySQLClient.record_loader` after `self`:
just `query` (`client.py` line 101). -/
def record_loader_params : List String := ["query"]

/-- Positional arguments `_WriteToMySQLFn` passes to `record_loader` at
both flush sites: `query, values_batch` (`io.py` lines 136 and 141). -/
def record_loader_call_args : List String := ["query", "values_batch"]

/-! ## Split planner (`source.py`, `MySQLSource.split` and `_build_value`)

`_build_value` sets `self._chunk_size = self._counts // 10000` with no
clamping; `split` then runs

```
bundle_start = start_position
bundle_stop = self._chunk_size
while bundle_start < stop_position:
    yield (bundle_start, bundle_stop)
    bundle_start = bundle_stop
    bundle_stop += self._chunk_size
```
-/

/-- The assignment `self._chunk_size = self._counts // 10000` (`source.py` line 83). -/
def chunk_size (counts : Nat) : Nat := counts / 10000

/-- One iteration of the `split` loop body: the state is the pair
`(bundle_start, bundle_stop)`; after yielding, `bundle_start = bundle_stop`
and `bundle_stop += chunk`. -/
def splitStep (chunk : Nat) (s : Nat × Nat) : Nat × Nat := (s.2, s.2 + chunk)

/-- The first `n` iterations of the `split` loop: each iteration whose
guard `bundle_start < stop_position` holds yields the current
`(bundle_start, bundle_stop)` bundle and steps; the loop exits when the
guard fails.  `splitRun chunk stop n s` is the list of bundles yielded in
at most `n` iterations starting from state `s`. -/
def splitRun (chunk stop : Nat) : Nat → Nat × Nat → List (Nat × Nat)
  | 0, _ => []
  | Nat.succ n, s =>
      if s.1 < stop then s :: splitRun chunk stop n (splitStep chunk s) else []

/-- The whole generator for start position 0 and stop position `counts`,
seen through a fuel bound: initial state is
`(start_position, chunk_size counts)` (`source.py` lines 62-63). -/
def splitBundles (counts fuel : Nat) : List (Nat × Nat) :=
  splitRun (chunk_size counts) counts fuel (0, chunk_size counts)

/-! ## Range-tracked reader (`source.py`, `MySQLSource.read`)

A driver row with a dictionary cursor is a dict; Python's `not next_object`
is true for `None` (exhausted generator) and for the falsy empty dict.
`range(start, stop)` evaluates both bounds once; the tracker's `try_claim`
is modelled as a pure function of the position, one invocation per
position in increasing order. -/

/-- A row produced by the dictionary cursor. -/
abbrev Row := List (String × Int)

/-- Python truthiness of a dict: non-empty dicts are truthy. -/
def rowTruthy (r : Row) : Bool := !r.isEmpty

/-- The outcome of the `for i in range(start, stop)` loop of `read`:
the `(position, row)` pairs yielded, the `try_claim` invocations with
their results, whether the range was exhausted (loop fell through rather
than `return`ing early), and the rows left in the generator. -/
structure ReadRun where
  emitted : List (Nat × Row)
  claims : List (Nat × Bool)
  rangeDone : Bool
  remaining : List Row
deriving DecidableEq, Repr

/-- The `for` loop of `read` (`source.py` lines 40-46), fuelled by the
number of remaining positions.  Each iteration pulls the next row
(`next(record_generator, None)`); if it is falsy the loop returns without
calling `try_claim` (short-circuit `or`); otherwise `try_claim(i)` runs
and a refusal returns, else the row is yielded at position `i`. -/
def readFor (claim : Nat → Bool) : Nat → Nat → List Row → ReadRun
  | 0, _, rows => ⟨[], [], true, rows⟩
  | Nat.succ _, _, [] => ⟨[], [], false, []⟩
  | Nat.succ n, i, r :: rest =>
      if rowTruthy r then
        if claim i then
          let run := readFor claim n (i + 1) rest
          ⟨(i, r) :: run.emitted, (i, true) :: run.claims, run.rangeDone, run.remaining⟩
        else ⟨[], [(i, false)], false, rest⟩
      else ⟨[], [], false, rest⟩

/-- The trailing `while True` loop of `read` (`source.py` lines 48-53):
pull rows and yield each truthy one, stopping at the first falsy pull. -/
def readDrain : List Row → List Row
  | [] => []
  | r :: rest => if rowTruthy r then r :: readDrain rest else []

/-- The observable behaviour of one invocation of `read`. -/
structure ReadResult where
  emitted : List (Nat × Row)
  claims : List (Nat × Bool)
  drained : List Row
deriving DecidableEq, Repr

/-- Behaviour of `MySQLSource.read` over tracker range `[start, stop)` and row stream
`rows`: run the `for` loop; only when it exhausts the range does control
reach the `while True` drain loop (an early `return` ends the generator). -/
def mysqlRead (claim : Nat → Bool) (start stop : Nat) (rows : List Row) : ReadResult :=
  let run := readFor claim (stop - start) start rows
  ⟨run.emitted, run.claims, if run.rangeDone then readDrain run.remaining else []⟩

/-- A tracker whose `try_claim` always succeeds. -/
def claimAll : Nat → Bool := fun _ => true

/-- A tracker whose `try_claim` always refuses. -/
def claimNone : Nat → Bool := fun _ => false

/-- Three truthy sample rows. -/
def sampleRows : List Row := [[("id", 1)], [("id", 2)], [("id", 3)]]

/-! ## Batch writer (`io.py`, `_WriteToMySQLFn`)

`process` derives the column list from the element's keys, builds the
INSERT (optionally upsert) statement, appends the element's values to
`self._values_batch`, and flushes when the batch reaches
`self._batch_size`; `finish_bundle` flushes any remaining rows with the
last-built statement. -/

/-- Placeholders: `value_str = '%s' + (',%s' * (len(values)-1))` (`io.py` line 122);
Python's `s * k` is empty for `k <= 0`, matching `Nat` subtraction. -/
def value_str (nvals : Nat) : String :=
  "%s" ++ String.join (List.replicate (nvals - 1) ",%s")

/-- Upsert terms: `update_str = ", ".join(f"{column} = VALUES({column})" for column in
columns)` (`io.py` lines 127-129). -/
def update_str (columns : List String) : String :=
  String.intercalate ", " (columns.map (fun c => c ++ " = VALUES(" ++ c ++ ")"))

/-- The statement built per element by `process` (`io.py` lines 121-131):
the INSERT, with the upsert clause appended when `do_upsert` is set. -/
def buildWriteQuery (database table : String) (columns : List String)
    (nvals : Nat) (do_upsert : Bool) : String :=
  let q := "INSERT INTO " ++ database ++ "." ++ table ++ " ("
    ++ String.intercalate ", " columns ++ ") VALUES (" ++ value_str nvals ++ ")"
  if do_upsert then q ++ " ON DUPLICATE KEY UPDATE " ++ update_str columns ++ ";" else q

/-- The mutable state of `_WriteToMySQLFn` between elements:
`self._values_batch` and the last-built `self.query`. -/
structure WState where
  values_batch : List (List Int)
  query : String
deriving DecidableEq, Repr

/-- One call of `record_loader(query, values_batch)` made at a flush
site, recording the statement and the accumulated value-tuples passed. -/
structure FlushCall where
  query : String
  batch : List (List Int)
deriving DecidableEq, Repr

/-- One call of `_WriteToMySQLFn.process` (`io.py` lines 114-137):
collect columns and values in dict order, build and remember the query,
append the values to the batch, and when `len(values_batch) >= batch_size`
flush the whole batch and clear it. -/
def wprocess (batch_size : Nat) (do_upsert : Bool) (database table : String)
    (st : WState) (element : List (String × Int)) : WState × List FlushCall :=
  let columns := element.map Prod.fst
  let values := element.map Prod.snd
  let query := buildWriteQuery database table columns values.length do_upsert
  let batch := st.values_batch ++ [values]
  if batch_size ≤ batch.length then
    (⟨[], query⟩, [⟨query, batch⟩])
  else
    (⟨batch, query⟩, [])

/-- Completion: `_WriteToMySQLFn.finish_bundle` (`io.py` lines 139-142): flush any
non-empty remaining batch with the last-built statement, then clear. -/
def wfinish (st : WState) : WState × List FlushCall :=
  if st.values_batch.isEmpty then (st, [])
  else (⟨[], st.query⟩, [⟨st.query, st.values_batch⟩])

/-- Feed a list of elements through `process`, starting from the state
`start_bundle` leaves behind (empty batch), collecting every flush call. -/
def wrun (batch_size : Nat) (do_upsert : Bool) (database table : String)
    (elements : List (List (String × Int))) : WState × List FlushCall :=
  elements.foldl
    (fun acc el =>
      let step := wprocess batch_size do_upsert database table acc.1 el
      (step.1, acc.2 ++ step.2))
    (⟨[], ""⟩, [])

/-- Feed the elements through `process` and then run `finish_bundle`. -/
def wrunFinish (batch_size : Nat) (do_upsert : Bool) (database table : String)
    (elements : List (List (String × Int))) : WState × List FlushCall :=
  let run := wrun batch_size do_upsert database table elements
  let fin := wfinish run.1
  (fin.1, run.2 ++ fin.2)

/-! ## `record_loader` transaction semantics (`client.py` lines 101-124)

Inside `record_loader`, `cur.execute` either succeeds or raises; only
`MySQLConnectorError` is caught, triggering `conn.rollback()` and a
re-raise as `MySQLClientError`; on success `conn.commit()` runs. -/

/-- A connection-level operation performed by `record_loader`. -/
inductive DbEvent where
  | execute
  | commit
  | rollback
deriving DecidableEq, Repr

/-- The trace of `record_loader` as a function of what `cur.execute`
raises: on success, execute then commit; on a driver error, execute then
rollback, surfacing `MySQLClientError`; any other exception propagates
uncaught with neither commit nor rollback. -/
def record_loader_trace : Option PyErr → List DbEvent × Option PyErr
  | none => ([DbEvent.execute, DbEvent.commit], none)
  | some PyErr.mysqlConnectorError =>
      ([DbEvent.execute, DbEvent.rollback], some PyErr.mysqlClientError)
  | some e => ([DbEvent.execute], some e)

/-- A flush site in `io.py` (`process` line 136-137 or `finish_bundle`
line 141-142): call `record_loader`, and only if it returns normally run
`self._values_batch.clear()`; an exception propagates before the clear,
leaving the batch as it was.  Returns the writer state after the flush,
the connection events, and the surfaced error if any. -/
def flushThenClear (st : WState) (execErr : Option PyErr) :
    WState × List DbEvent × Option PyErr :=
  match record_loader_trace execErr with
  | (evs, some e) => (st, evs, some e)
  | (evs, none) => (⟨[], st.query⟩, evs, none)

/-! ## Helper lemmas about the reader loop -/

/-- Every row emitted by the `for` loop was emitted at a position whose
claim succeeded, and that position lies in `[i, i + n)`. -/
theorem readFor_emitted_mem (claim : Nat → Bool) :
    ∀ (n i : Nat) (rows : List Row) (p : Nat) (r : Row),
      (p, r) ∈ (readFor claim n i rows).emitted →
      claim p = true ∧ i ≤ p ∧ p < i + n := by
  intro n
  induction n with
  | zero => intro i rows p r h; simp [readFor] at h
  | succ n ih =>
    intro i rows p r h
    match rows with
    | [] => simp [readFor] at h
    | r0 :: rest =>
      rw [readFor] at h
      by_cases htr : rowTruthy r0
      · rw [if_pos htr] at h
        by_cases hcl : claim i
        · rw [if_pos hcl] at h
          simp only [List.mem_cons] at h
          rcases h with h | h
          · obtain ⟨hp, -⟩ := Prod.mk.injEq .. ▸ h
            exact ⟨by rw [hp]; exact hcl, by omega, by omega⟩
          · obtain ⟨h1, h2, h3⟩ := ih (i + 1) rest p r h
            exact ⟨h1, by omega, by omega⟩
        · rw [if_neg hcl] at h
          simp at h
      · rw [if_neg htr] at h
        simp at h

/-- The positions of the rows emitted by the `for` loop are consecutive,
starting at the loop's starting position. -/
theorem readFor_emitted_map_fst (claim : Nat → Bool) :
    ∀ (n i : Nat) (rows : List Row),
      (readFor claim n i rows).emitted.map Prod.fst
        = List.range' i (readFor claim n i rows).emitted.length := by
  intro n
  induction n with
  | zero => intro i rows; simp [readFor]
  | succ n ih =>
    intro i rows
    match rows with
    | [] => simp [readFor]
    | r0 :: rest =>
      rw [readFor]
      by_cases htr : rowTruthy r0
      · rw [if_pos htr]
        by_cases hcl : claim i
        · rw [if_pos hcl]
          simp only [List.map_cons, List.length_cons, List.range'_succ]
          exact congrArg (i :: ·) (ih (i + 1) rest)
        · rw [if_neg hcl]; simp
      · rw [if_neg htr]; simp

/-- The `for` loop exhausts the range (falls through rather than
returning early) exactly by emitting one row per remaining position. -/
theorem readFor_rangeDone_length (claim : Nat → Bool) :
    ∀ (n i : Nat) (rows : List Row),
      (readFor claim n i rows).rangeDone = true →
      (readFor claim n i rows).emitted.length = n := by
  intro n
  induction n with
  | zero => intro i rows _; simp [readFor]
  | succ n ih =>
    intro i rows h
    match rows with
    | [] => simp [readFor] at h
    | r0 :: rest =>
      rw [readFor] at h ⊢
      by_cases htr : rowTruthy r0
      · rw [if_pos htr] at h ⊢
        by_cases hcl : claim i
        · rw [if_pos hcl] at h ⊢
          simpa using ih (i + 1) rest h
        · rw [if_neg hcl] at h; simp at h
      · rw [if_neg htr] at h; simp at h

/-- Every `try_claim` invocation made by the `for` loop is at a position
at or after the loop's starting position. -/
theorem readFor_claims_ge (claim : Nat → Bool) :
    ∀ (n i : Nat) (rows : List Row) (p : Nat) (b : Bool),
      (p, b) ∈ (readFor claim n i rows).claims → i ≤ p := by
  intro n
  induction n with
  | zero => intro i rows p b h; simp [readFor] at h
  | succ n ih =>
    intro i rows p b h
    match rows with
    | [] => simp [readFor] at h
    | r0 :: rest =>
      rw [readFor] at h
      by_cases htr : rowTruthy r0
      · rw [if_pos htr] at h
        by_cases hcl : claim i
        · rw [if_pos hcl] at h
          simp only [List.mem_cons] at h
          rcases h with h | h
          · obtain ⟨hp, -⟩ := Prod.mk.injEq .. ▸ h
            omega
          · have := ih (i + 1) rest p b h
            omega
        · rw [if_neg hcl] at h
          simp only [List.mem_singleton] at h
          obtain ⟨hp, -⟩ := Prod.mk.injEq .. ▸ h
          omega
      · rw [if_neg htr] at h
        simp at h

/-- Once `try_claim` refuses a position, the `for` loop has returned
early (the range is not exhausted) and everything it emitted sits at a
strictly smaller position. -/
theorem readFor_false_claim (claim : Nat → Bool) :
    ∀ (n i : Nat) (rows : List Row) (p : Nat),
      (p, false) ∈ (readFor claim n i rows).claims →
      (readFor claim n i rows).rangeDone = false ∧
      ∀ q r, (q, r) ∈ (readFor claim n i rows).emitted → q < p := by
  intro n
  induction n with
  | zero => intro i rows p h; simp [readFor] at h
  | succ n ih =>
    intro i rows p h
    match rows with
    | [] => simp [readFor] at h
    | r0 :: rest =>
      rw [readFor] at h ⊢
      by_cases htr : rowTruthy r0
      · rw [if_pos htr] at h ⊢
        by_cases hcl : claim i
        · rw [if_pos hcl] at h ⊢
          simp only [List.mem_cons] at h
          rcases h with h | h
          · exact absurd (Prod.mk.injEq .. ▸ h).2 (by simp)
          · obtain ⟨hdone, hlt⟩ := ih (i + 1) rest p h
            have hip : i + 1 ≤ p := readFor_claims_ge claim n (i + 1) rest p false h
            refine ⟨hdone, ?_⟩
            intro q r hq
            simp only [List.mem_cons] at hq
            rcases hq with hq | hq
            · obtain ⟨rfl, -⟩ := Prod.mk.injEq .. ▸ hq
              omega
            · exact hlt q r hq
        · rw [if_neg hcl] at h ⊢
          simp only [List.mem_singleton] at h
          obtain ⟨rfl, -⟩ := Prod.mk.injEq .. ▸ h
          exact ⟨rfl, by simp⟩
      · rw [if_neg htr] at h
        simp at h

/-! ## Claim theorems -/

/-- C1: the claim says `split` terminates for every total `T ≥ 1` because
the chunk size `T // 10000` is clamped to at least 1.  The code has no
clamp: for `T = 5000` the chunk size is 0, the loop state never moves off
`(0, 0)`, the guard `0 < 5000` never fails, and the generator yields the
zero-width bundle `[0, 0)` forever — `n` loop iterations yield `n` copies
of `(0, 0)` for every `n`, so the bundle sequence is infinite. -/
theorem split_chunk_zero_loops_forever :
    chunk_size 5000 = 0 ∧
    ∀ n : Nat, splitBundles 5000 n = List.replicate n (0, 0) := by
  refine ⟨rfl, ?_⟩
  have key : ∀ n : Nat, splitRun 0 5000 n (0, 0) = List.replicate n (0, 0) := by
    intro n
    induction n with
    | zero => rfl
    | succ n ih =>
      rw [splitRun, if_pos (by decide : ((0, 0) : Nat × Nat).1 < 5000)]
      rw [show splitStep 0 (0, 0) = (0, 0) from rfl, ih, List.replicate_succ]
  intro n
  simpa [splitBundles, chunk_size] using key n

/-- C2: the claim says the estimator takes the `rows` value of a
`PRIMARY`/`SIMPLE` row and never of a `DERIVED` row, returning 42 for the
two given planner rows in either order.  The condition on line 89 of
`client.py` is `record["select_type"] == "PRIMARY" or "SIMPLE"`, which is
always true (its right operand is the truthy literal `"SIMPLE"`), so the
loop keeps the **last** row's estimate: the order `[PRIMARY 42,
DERIVED 500]` yields 500, not 42. -/
theorem estimator_select_type_always_true :
    selectTypeCond "DERIVED" = true ∧
    rough_counts_estimator [⟨"PRIMARY", 42⟩, ⟨"DERIVED", 500⟩] = Except.ok 500 ∧
    rough_counts_estimator [⟨"DERIVED", 500⟩, ⟨"PRIMARY", 42⟩] = Except.ok 42 := by
  exact ⟨rfl, rfl, rfl⟩

/-- C3 (counterexample): the claim says `read` stops immediately and
emits no further rows when the range is exhausted.  With tracker range
`[0, 1)` and three available rows, the loop claims position 0, emits one
row, exhausts the range — and then the trailing `while True` loop emits
the two remaining rows without claiming any position. -/
theorem read_past_range_counterexample :
    (mysqlRead claimAll 0 1 sampleRows).emitted.length = 1 ∧
    (mysqlRead claimAll 0 1 sampleRows).drained = [[("id", 2)], [("id", 3)]] := by
  exact ⟨rfl, rfl⟩

/-- C3 (amended): within the `for` loop, `read` claims each integer
position of `[start, stop)` consecutively and in order before emitting,
and emits only rows whose claim succeeded inside that range; a refused
claim or an exhausted row sequence **within** the range stops the
invocation with nothing drained; only when the range itself is exhausted
(one row emitted per position of the range) does the reader go on to
drain the remaining rows without claiming. -/
theorem read_claim_discipline (claim : Nat → Bool) (start stop : Nat)
    (rows : List Row) :
    (∀ p r, (p, r) ∈ (mysqlRead claim start stop rows).emitted →
        claim p = true ∧ start ≤ p ∧ p < stop) ∧
    ((mysqlRead claim start stop rows).emitted.map Prod.fst
        = List.range' start (mysqlRead claim start stop rows).emitted.length) ∧
    ((mysqlRead claim start stop rows).drained ≠ [] →
        (mysqlRead claim start stop rows).emitted.length = stop - start) ∧
    ((mysqlRead claim start stop rows).emitted.length ≠ stop - start →
        (mysqlRead claim start stop rows).drained = []) := by
  refine ⟨?_, ?_, ?_, ?_⟩
  · intro p r hp
    obtain ⟨h1, h2, h3⟩ := readFor_emitted_mem claim (stop - start) start rows p r hp
    exact ⟨h1, h2, by omega⟩
  · exact readFor_emitted_map_fst claim (stop - start) start rows
  · intro hd
    by_cases hdone : (readFor claim (stop - start) start rows).rangeDone
    · exact readFor_rangeDone_length claim (stop - start) start rows hdone
    · exact absurd (by simp [mysqlRead, hdone]) hd
  · intro hlen
    by_cases hdone : (readFor claim (stop - start) start rows).rangeDone
    · exact absurd (readFor_rangeDone_length claim (stop - start) start rows hdone) hlen
    · simp [mysqlRead, hdone]

/-- C3 (witness): at the concrete input of the counterexample, the
amended theorem's drain clause applies: the drain is non-empty and the
range `[0, 1)` was fully emitted. -/
theorem read_claim_discipline_witness :
    (mysqlRead claimAll 0 1 sampleRows).drained ≠ [] ∧
    (mysqlRead claimAll 0 1 sampleRows).emitted.length = 1 - 0 :=
  ⟨by decide, (read_claim_discipline claimAll 0 1 sampleRows).2.2.1 (by decide)⟩

/-- C7: once `try_claim(i)` returns false within one invocation of
`read`, that invocation emits nothing at any position `≥ i` — in fact it
returns at once, so every emitted row sits at a position `< i` and the
trailing drain loop is never reached. -/
theorem read_refused_claim_stops (claim : Nat → Bool) (start stop : Nat)
    (rows : List Row) (i : Nat)
    (h : (i, false) ∈ (mysqlRead claim start stop rows).claims) :
    (∀ p r, (p, r) ∈ (mysqlRead claim start stop rows).emitted → p < i) ∧
    (mysqlRead claim start stop rows).drained = [] := by
  have hmem : (i, false) ∈ (readFor claim (stop - start) start rows).claims := h
  obtain ⟨hdone, hlt⟩ := readFor_false_claim claim (stop - start) start rows i hmem
  refine ⟨fun p r hp => hlt p r hp, ?_⟩
  simp [mysqlRead, hdone]

/-- C7 (witness): with a tracker that refuses every claim,
`try_claim(0)` is refused on range `[0, 2)` and nothing is drained. -/
theorem read_refused_claim_stops_witness :
    ((0, false) ∈ (mysqlRead claimNone 0 2 sampleRows).claims) ∧
    (mysqlRead claimNone 0 2 sampleRows).drained = [] :=
  ⟨by decide, (read_refused_claim_stops claimNone 0 2 sampleRows 0 (by decide)).2⟩

/-- C4: the claim says feeding exactly `batch_size` rows triggers exactly
one flush that executes the INSERT with all accumulated value-tuples and
commits.  The accumulation discipline holds — with `batch_size = 2`, two
rows produce exactly one flush call carrying both value-tuples and leave
the batch empty, and a third row plus `finish_bundle` produces a second
flush with the single remaining row — but the flush site passes two
positional arguments `(query, values_batch)` to
`MySQLClient.record_loader`, which accepts only `(query)`, so the call
raises `TypeError` and the statement is never executed nor committed. -/
theorem batch_writer_flush_and_arity :
    (wrun 2 false "db" "t" [[("id", 1)], [("id", 2)]]).2
      = [⟨"INSERT INTO db.t (id) VALUES (%s)", [[1], [2]]⟩] ∧
    (wrun 2 false "db" "t" [[("id", 1)], [("id", 2)]]).1.values_batch = [] ∧
    (wrunFinish 2 false "db" "t" [[("id", 1)], [("id", 2)], [("id", 3)]]).2
      = [⟨"INSERT INTO db.t (id) VALUES (%s)", [[1], [2]]⟩,
         ⟨"INSERT INTO db.t (id) VALUES (%s)", [[3]]⟩] ∧
    pythonCallOk record_loader_params.length record_loader_call_args.length = false := by
  exact ⟨rfl, rfl, rfl, rfl⟩

/-- C5: when statement execution inside a flush raises a driver error,
`record_loader` rolls the transaction back and surfaces
`MySQLClientError` without committing, and the flush site's
`values_batch.clear()` is never reached, so the pending batch survives
the error unchanged. -/
theorem flush_error_rollback_keeps_batch (st : WState) :
    record_loader_trace (some PyErr.mysqlConnectorError)
      = ([DbEvent.execute, DbEvent.rollback], some PyErr.mysqlClientError) ∧
    (flushThenClear st (some PyErr.mysqlConnectorError)).1 = st ∧
    (flushThenClear st (some PyErr.mysqlConnectorError)).2.2
      = some PyErr.mysqlClientError := by
  exact ⟨rfl, rfl, rfl⟩

/-- C5 (witness): at a concrete one-row pending batch, the failed flush
leaves the batch exactly as it was and surfaces `MySQLClientError`. -/
theorem flush_error_rollback_keeps_batch_witness :
    (flushThenClear ⟨[[1]], "q"⟩ (some PyErr.mysqlConnectorError)).1
      = (⟨[[1]], "q"⟩ : WState) :=
  (flush_error_rollback_keeps_batch ⟨[[1]], "q"⟩).2.1

/-- C6: the claim says a non-positive estimate raises the domain
`MySQLClientError`.  The raise on line 97 of `client.py` sits outside the
`try`/`except` and constructs `mysql.connector.errors.Error` — the driver
error, not the domain client error — so on an empty planner result (and
on any row set with estimate `≤ 0`) the surfaced exception is the wrong
kind. -/
theorem estimator_nonpositive_raises_driver_error :
    rough_counts_estimator [] = Except.error PyErr.mysqlConnectorError ∧
    rough_counts_estimator [⟨"SIMPLE", 0⟩] = Except.error PyErr.mysqlConnectorError ∧
    (PyErr.mysqlConnectorError == PyErr.mysqlClientError) = false := by
  exact ⟨rfl, rfl, by decide⟩

/-- C8: `ReadFromMySQL.expand` passes seven positional arguments to
`MySQLSource`, whose `__init__` accepts exactly two (`query`, `config`,
with no defaults or varargs), so the call cannot bind and construction of
the bounded source always fails with `TypeError`. -/
theorem readfrommysql_expand_arity_mismatch :
    mysqlsource_init_params.length = 2 ∧
    readfrommysql_expand_args.length = 7 ∧
    pythonCallOk mysqlsource_init_params.length readfrommysql_expand_args.length
      = false := by
  exact ⟨rfl, rfl, rfl⟩

/-- C9: `MySQLClient` construction succeeds exactly when the config's key
set equals `{host, port, database, user, password}`; any other key set
makes `__post_init__` raise `MySQLClientError`. -/
theorem mysql_client_config_validation (keys : Finset String) :
    (mysqlClientInit keys = Except.ok () ↔ keys = required_keys) ∧
    (keys ≠ required_keys →
      mysqlClientInit keys = Except.error PyErr.mysqlClientError) := by
  unfold mysqlClientInit validate_config
  by_cases h : keys = required_keys
  · subst h; simp
  · simp [h]

/-- C9 (witness): the exact required key set is accepted; the key set
`{host}` (missing four keys) is rejected with `MySQLClientError`. -/
theorem mysql_client_config_validation_witness :
    mysqlClientInit required_keys = Except.ok () ∧
    mysqlClientInit {"host"} = Except.error PyErr.mysqlClientError :=
  ⟨(mysql_client_config_validation required_keys).1.mpr rfl,
   (mysql_client_config_validation {"host"}).2 (by decide)⟩

/-- C10: with upsert enabled and columns `["id", "name"]`, the statement
built by `process` is the plain INSERT followed by the clause
`ON DUPLICATE KEY UPDATE id = VALUES(id), name = VALUES(name)` — one
`col = VALUES(col)` term per column, in column order — for every
database and table name. -/
theorem upsert_statement_shape (database table : String) :
    buildWriteQuery database table ["id", "name"] 2 true
      = buildWriteQuery database table ["id", "name"] 2 false
        ++ " ON DUPLICATE KEY UPDATE id = VALUES(id), name = VALUES(name);" := by
  show buildWriteQuery database table ["id", "name"] 2 false
      ++ " ON DUPLICATE KEY UPDATE " ++ update_str ["id", "name"] ++ ";" = _
  rw [String.append_assoc, String.append_assoc]
  rfl

end BeamMysql
